import Mathlib

/-!
Shallow embedding of `zotero-center-pdf`, which exists in two near-duplicate
variants: `src/src/plugin.ts` (the listener-strategy variant, suffix `L`
below) and `src/unnamed/part_000` (the override-strategy variant, suffix
`O` below). Plain methods shared verbatim by both variants (`getScrollTarget`,
`getCurrentPage`, `getViewerContainer`, `centerCurrentPage`, `log`,
`startup`, `shutdown`) are defined once.

DOM geometry quantities (`offsetTop`, `offsetLeft`, `clientWidth`,
`clientHeight`, `scrollTop`) are JS numbers; we model them as rationals,
over which the source's `* 0.5` is exact. Side effects (debug output,
listener registration, DOM listener installation, navigation-function
overriding, scrolling, viewer navigation primitives) are modelled as an
explicit trace of actions; the `Plugin` class itself mutates none of its
own fields, so each method returns the plugin unchanged together with its
action trace.
-/

namespace CenterPdf

/-- A page element (a `.pdfViewer .page` match) as read by the plugin:
position and size relative to the viewport's scroll frame. -/
structure Elem where
  offsetTop : Rat
  offsetLeft : Rat
  clientWidth : Rat
  clientHeight : Rat
deriving Repr, DecidableEq

/-- The scrollable `#viewerContainer` element: its own dimensions, its
current scroll position, and the snapshot of page elements returned by
`viewer.querySelectorAll('.pdfViewer .page')`. -/
structure Viewer where
  clientWidth : Rat
  clientHeight : Rat
  scrollTop : Rat
  scrollLeft : Rat
  pages : List Elem
deriving Repr, DecidableEq

/-- A computed `{top, left}` scroll target (derived, not stored). -/
structure ScrollTarget where
  top : Rat
  left : Rat
deriving Repr, DecidableEq

/-- One observable side effect of the plugin: a `Zotero.debug` line, host
event (un)registration, installation of a DOM listener or a navigation
override, a `viewer.scrollTo` call, or one of the viewer's own navigation
primitives invoked by an override wrapper. -/
inductive Action where
  | debug (msg : String)
  | registerListener (event : String) (ownerId : String)
  | unregisterListener (event : String)
  | installClick (ctrl : String)
  | installChange (ctrl : String)
  | overrideNav (name : String)
  | scrollTo (target : ScrollTarget)
  | historyNavigateBack
  | previousPage
  | nextPage
  | dispatch (event : String)
deriving Repr, DecidableEq

/-- Modelled from the spec: the system tag prefixed to every diagnostic
line, `config.addonName` from `package.json` (packaging metadata, not under
`src/`); the spec gives only the format `[<system-tag>] <message>`. -/
def addonName : String := "center-pdf"

/-- `Plugin.log`: emits `Zotero.debug` with the tagged message. -/
def logA (msg : String) : List Action :=
  [Action.debug ("[" ++ addonName ++ "] " ++ msg)]

/-- `Plugin.getScrollTarget` (identical in both variants):
`xOffset = (page.clientWidth - viewer.clientWidth) * 0.5`,
`yOffset = (page.clientHeight - viewer.clientHeight) * 0.5`, returning
`{ top: page.offsetTop + yOffset, left: page.offsetLeft + xOffset }`. -/
def getScrollTarget (viewer : Viewer) (page : Elem) : ScrollTarget :=
  let xOffset : Rat := (page.clientWidth - viewer.clientWidth) * (1 / 2)
  let yOffset : Rat := (page.clientHeight - viewer.clientHeight) * (1 / 2)
  { top := page.offsetTop + yOffset
    left := page.offsetLeft + xOffset }

/-- The loop-body test of `Plugin.getCurrentPage`:
`Math.abs(p.offsetTop - viewer.scrollTop) < 5`. -/
def withinTol (scrollTop : Rat) (p : Elem) : Bool :=
  |p.offsetTop - scrollTop| < 5

/-- `Plugin.getCurrentPage` (identical in both variants): iterate the page
snapshot in document order and return the first page whose `offsetTop`
differs from `viewer.scrollTop` by less than 5; `null` when none does. -/
def getCurrentPage (viewer : Viewer) : Option Elem :=
  viewer.pages.find? (withinTol viewer.scrollTop)

/-- The action trace of `Plugin.centerCurrentPage` (identical in both
variants): when no current page is identified, log the failure and return
without scrolling; otherwise log the target (the source serializes it into
the message, which the trace instead carries structurally in the
`scrollTo` action) and call `viewer.scrollTo(target)`. -/
def centerTrace (viewer : Viewer) : List Action :=
  match getCurrentPage viewer with
  | none => logA "couldn\x27t identify current page"
  | some page =>
    let target := getScrollTarget viewer page
    logA "scrolling to target" ++ [Action.scrollTo target]

/-- Effect of one action on the viewer element's scroll state:
`viewer.scrollTo({top, left})` sets `scrollTop` and `scrollLeft`; no other
action touches the viewer element. -/
def applyAction (v : Viewer) (a : Action) : Viewer :=
  match a with
  | Action.scrollTo t => { v with scrollTop := t.top, scrollLeft := t.left }
  | _ => v

/-- Effect of a whole action trace on the viewer element. -/
def applyActions (v : Viewer) (tr : List Action) : Viewer :=
  tr.foldl applyAction v

/-- What the frame's content document yields for the `#viewerContainer`
query, at `getViewerContainer` call time and at the `load` event (absent
content document behaves as an absent container, as under the source's
optional chaining). -/
structure IframeEnv where
  containerAtCall : Option Viewer
  containerAfterLoad : Option Viewer
deriving Repr, DecidableEq

/-- How the promise of `Plugin.getViewerContainer` resolves: synchronously
at call time, or suspended until the frame's `load` event and then with the
re-queried result (possibly `null`). It never rejects. -/
inductive ContainerResolution where
  | immediate (viewer : Viewer)
  | afterLoad (viewer : Option Viewer)
deriving Repr, DecidableEq

/-- `Plugin.getViewerContainer` (identical in both variants): query
`#viewerContainer`; if present resolve with it immediately, else wait for
the frame's `load` event, re-query once, and resolve with the result or
`null` (the source's `viewer || null`). -/
def getViewerContainer (env : IframeEnv) : ContainerResolution :=
  match env.containerAtCall with
  | some viewer => ContainerResolution.immediate viewer
  | none => ContainerResolution.afterLoad env.containerAfterLoad

/-- The container an `await Plugin.getViewerContainer(iframe)` yields once
the resolution (immediate or post-load) has happened. -/
def ContainerResolution.value : ContainerResolution → Option Viewer
  | ContainerResolution.immediate viewer => some viewer
  | ContainerResolution.afterLoad viewer => viewer

/-- The reader instance and DOM scaffolding as `addListeners` observes
them: the reader's `type` tag and `tabID`, whether
`reader._iframeWindow?.document` exists, the `tagName` of the first match
for `iframe[src="pdf/web/viewer.html"]` (`none` when absent), the frame's
`#viewerContainer` query results, which navigation controls the document
query finds (listener variant), and whether
`lastView._iframeWindow?.PDFViewerApplication` exposes `pdfViewer` and
`eventBus` (override variant). -/
structure ReaderEnv where
  readerType : String
  tabID : String
  hasDoc : Bool
  iframeTag : Option String
  frame : IframeEnv
  hasPrevious : Bool
  hasNext : Bool
  hasBack : Bool
  hasPageInput : Bool
  hasPdfViewer : Bool
  hasEventBus : Bool
deriving Repr, DecidableEq

/-- JS `String.prototype.toUpperCase`, modelled character-wise over the
string's character data. -/
def toUpperCase (s : String) : String :=
  ⟨s.data.map Char.toUpper⟩

/-- The source's `isIframe` guard: `e.tagName.toUpperCase() === 'IFRAME'`. -/
def isIframe (tagName : String) : Bool :=
  toUpperCase tagName == "IFRAME"

/-- The combined early guard of `addListeners` in both variants:
`!doc || !iframe || !isIframe(iframe)` fails exactly when this is false. -/
def ReaderEnv.frameReady (env : ReaderEnv) : Bool :=
  env.hasDoc &&
    match env.iframeTag with
    | some tag => isIframe tag
    | none => false

/-- `Plugin.addListeners` of the listener-strategy variant
(`src/src/plugin.ts`): log entry; on a failed document/frame guard log the
not-ready diagnostic and stop; await the container and stop silently when
it is `null`; otherwise install a deferred-centering `click` handler on
each of the previous/next/back buttons that exists and a `change` handler
on the page-number input when it exists, then log completion. -/
def addListenersTraceL (env : ReaderEnv) : List Action :=
  logA "adding page listeners" ++
    if env.frameReady then
      match (getViewerContainer env.frame).value with
      | none => []
      | some _viewer =>
        (if env.hasPrevious then [Action.installClick "previous"] else []) ++
        (if env.hasNext then [Action.installClick "next"] else []) ++
        (if env.hasBack then [Action.installClick "navigateBack"] else []) ++
        (if env.hasPageInput then [Action.installChange "pageNumber"] else []) ++
        logA "added page listeners"
    else
      logA ("couldn\x27t attach styles; tab " ++ env.tabID ++ " not ready")

/-- `Plugin.addListeners` of the override-strategy variant
(`src/unnamed/part_000`): log entry; on a failed document/frame guard log
the not-ready diagnostic and stop; await the container and read
`pdfViewer`/`eventBus`, stopping silently when any of the three is absent;
otherwise replace the five navigation functions on `lastView` with
re-centering wrappers, then log completion. -/
def addListenersTraceO (env : ReaderEnv) : List Action :=
  logA "adding page listeners" ++
    if env.frameReady then
      match (getViewerContainer env.frame).value, env.hasPdfViewer, env.hasEventBus with
      | some _viewer, true, true =>
        [Action.overrideNav "navigateBack",
         Action.overrideNav "navigateToPreviousPage",
         Action.overrideNav "navigateToNextPage",
         Action.overrideNav "navigateToFirstPage",
         Action.overrideNav "navigateToLastPage"] ++
        logA "added page listeners"
      | _, _, _ => []
    else
      logA ("couldn\x27t attach styles; tab " ++ env.tabID ++ " not ready")

/-- `reader.type === 'pdf'`, the `isPDFReader` predicate of the override
variant. -/
def isPDFReader (env : ReaderEnv) : Bool :=
  env.readerType == "pdf"

/-- The plugin object's state: the four configuration fields assigned in
the constructor (with the source's destructuring defaults) and the private
`#isActive` backing field. -/
structure Plugin where
  id : String
  stylesId : String
  version : String
  rootURI : String
  isActive : Bool
deriving Repr, DecidableEq

/-- The `PluginOptions` argument of the constructor; `id` and `stylesId`
may be left to their destructuring defaults. -/
structure PluginOptions where
  id : Option String
  version : String
  rootURI : String
  stylesId : Option String
deriving Repr, DecidableEq

/-- The constructor: applies the defaults `center-pdf@dylan.ac` and
`pluginStyles`, copies the four fields, and leaves `#isActive` at its
initializer `true`. -/
def Plugin.init (opts : PluginOptions) : Plugin :=
  { id := opts.id.getD "center-pdf@dylan.ac"
    stylesId := opts.stylesId.getD "pluginStyles"
    version := opts.version
    rootURI := opts.rootURI
    isActive := true }

/-- `Plugin.startup`: logs and registers the single `renderToolbar`
listener with the plugin id as owner. -/
def Plugin.startup (p : Plugin) : Plugin × List Action :=
  (p, logA "registering renderToolbar listener" ++
    [Action.registerListener "renderToolbar" p.id])

/-- `Plugin.shutdown`: logs and unregisters the `renderToolbar` listener. -/
def Plugin.shutdown (p : Plugin) : Plugin × List Action :=
  (p, logA "unregistering renderToolbar listener" ++
    [Action.unregisterListener "renderToolbar"])

/-- `Plugin.centerCurrentPage` (identical in both variants). -/
def Plugin.centerCurrentPage (p : Plugin) (viewer : Viewer) : Plugin × List Action :=
  (p, centerTrace viewer)

/-- The listener variant's `addListeners` as a method. -/
def Plugin.addListenersL (p : Plugin) (env : ReaderEnv) : Plugin × List Action :=
  (p, addListenersTraceL env)

/-- The override variant's `addListeners` as a method. -/
def Plugin.addListenersO (p : Plugin) (env : ReaderEnv) : Plugin × List Action :=
  (p, addListenersTraceO env)

/-- `Plugin.onRenderToolbar` of the listener variant: starts
`addListeners(e.reader)` unconditionally, with no reader-kind filter. -/
def Plugin.onRenderToolbarL (p : Plugin) (env : ReaderEnv) : Plugin × List Action :=
  p.addListenersL env

/-- `Plugin.onRenderToolbar` of the override variant: starts
`addListeners(reader)` only when `isPDFReader(reader)` holds. -/
def Plugin.onRenderToolbarO (p : Plugin) (env : ReaderEnv) : Plugin × List Action :=
  (p, if isPDFReader env then addListenersTraceO env else [])

/-- The override variant's replacement `lastView.navigateBack`: call the
original `lastView._history.navigateBack()`, then `centerCurrentPage`. -/
def Plugin.navigateBack (p : Plugin) (viewer : Viewer) : List Action :=
  Action.historyNavigateBack :: (p.centerCurrentPage viewer).2

/-- The replacement `lastView.navigateToPreviousPage`:
`pdfViewer.previousPage()` then `centerCurrentPage`. -/
def Plugin.navigateToPreviousPage (p : Plugin) (viewer : Viewer) : List Action :=
  Action.previousPage :: (p.centerCurrentPage viewer).2

/-- The replacement `lastView.navigateToNextPage`:
`pdfViewer.nextPage()` then `centerCurrentPage`. -/
def Plugin.navigateToNextPage (p : Plugin) (viewer : Viewer) : List Action :=
  Action.nextPage :: (p.centerCurrentPage viewer).2

/-- The replacement `lastView.navigateToFirstPage`:
`eventBus.dispatch('firstpage')` then `centerCurrentPage`. -/
def Plugin.navigateToFirstPage (p : Plugin) (viewer : Viewer) : List Action :=
  Action.dispatch "firstpage" :: (p.centerCurrentPage viewer).2

/-- The replacement `lastView.navigateToLastPage`:
`eventBus.dispatch('lastpage')` then `centerCurrentPage`. -/
def Plugin.navigateToLastPage (p : Plugin) (viewer : Viewer) : List Action :=
  Action.dispatch "lastpage" :: (p.centerCurrentPage viewer).2

/-- One invocation of any public operation of the plugin (both variants'
handler and attachment methods included). -/
inductive Op where
  | startup
  | shutdown
  | onRenderToolbarL (env : ReaderEnv)
  | onRenderToolbarO (env : ReaderEnv)
  | addListenersL (env : ReaderEnv)
  | addListenersO (env : ReaderEnv)
  | centerCurrentPage (viewer : Viewer)
  | log (msg : String)

/-- Dispatch one operation on the plugin object. -/
def Plugin.run (p : Plugin) : Op → Plugin × List Action
  | Op.startup => p.startup
  | Op.shutdown => p.shutdown
  | Op.onRenderToolbarL env => p.onRenderToolbarL env
  | Op.onRenderToolbarO env => p.onRenderToolbarO env
  | Op.addListenersL env => p.addListenersL env
  | Op.addListenersO env => p.addListenersO env
  | Op.centerCurrentPage viewer => p.centerCurrentPage viewer
  | Op.log msg => (p, logA msg)

/-- Run a whole lifetime of operations, keeping the plugin state. -/
def Plugin.runAll (p : Plugin) (ops : List Op) : Plugin :=
  ops.foldl (fun q op => (q.run op).1) p

/-- Whether an action installs a hook: a DOM listener or a navigation
override. -/
def isInstall : Action → Bool
  | Action.installClick _ => true
  | Action.installChange _ => true
  | Action.overrideNav _ => true
  | _ => false

/-- Number of hooks a trace installs. -/
def installCount (tr : List Action) : Nat :=
  tr.countP isInstall

/-- Whether an action is one of the viewer's own navigation primitives. -/
def isNavPrim : Action → Bool
  | Action.historyNavigateBack => true
  | Action.previousPage => true
  | Action.nextPage => true
  | Action.dispatch _ => true
  | _ => false

/-- Number of navigation primitives a trace performs. -/
def navPrimCount (tr : List Action) : Nat :=
  tr.countP isNavPrim

/-! Concrete fixtures used by witnesses and counterexamples. -/

/-- An empty viewer container, 800 by 600. -/
def viewerEmpty : Viewer :=
  { clientWidth := 800, clientHeight := 600, scrollTop := 0, scrollLeft := 0, pages := [] }

/-- A page whose top edge is 2 units above the scroll position 1200. -/
def pageA : Elem :=
  { offsetTop := 1198, offsetLeft := 0, clientWidth := 800, clientHeight := 600 }

/-- A page whose top edge is 3 units below the scroll position 1200. -/
def pageB : Elem :=
  { offsetTop := 1203, offsetLeft := 0, clientWidth := 800, clientHeight := 600 }

/-- A viewer scrolled to 1200 with two pages inside the tolerance. -/
def viewerAB : Viewer :=
  { clientWidth := 800, clientHeight := 600, scrollTop := 1200, scrollLeft := 0
    pages := [pageA, pageB] }

/-- A page far from the scroll position of `viewerFar`. -/
def pageFar : Elem :=
  { offsetTop := 100, offsetLeft := 0, clientWidth := 800, clientHeight := 600 }

/-- A viewer whose single page is outside the 5-unit tolerance. -/
def viewerFar : Viewer :=
  { clientWidth := 800, clientHeight := 600, scrollTop := 0, scrollLeft := 0
    pages := [pageFar] }

/-- A plugin constructed with default id and stylesId. -/
def p0 : Plugin :=
  Plugin.init { id := none, version := "1.0.0", rootURI := "root/", stylesId := none }

/-- A fully ready pdf reader environment: document, iframe, synchronously
present container, all four navigation controls, pdfViewer and eventBus. -/
def envReadyFull : ReaderEnv :=
  { readerType := "pdf", tabID := "tab1", hasDoc := true, iframeTag := some "IFRAME"
    frame := { containerAtCall := some viewerEmpty, containerAfterLoad := none }
    hasPrevious := true, hasNext := true, hasBack := true, hasPageInput := true
    hasPdfViewer := true, hasEventBus := true }

/-- A reader of a non-pdf kind (an epub reader with none of the pdf
scaffolding present). -/
def envEpub : ReaderEnv :=
  { readerType := "epub", tabID := "tab2", hasDoc := false, iframeTag := none
    frame := { containerAtCall := none, containerAfterLoad := none }
    hasPrevious := false, hasNext := false, hasBack := false, hasPageInput := false
    hasPdfViewer := false, hasEventBus := false }

/-- A pdf reader whose frame is fine but whose content document has no
`#viewerContainer`, neither at call time nor after the `load` event. -/
def envNoViewer : ReaderEnv :=
  { readerType := "pdf", tabID := "tab3", hasDoc := true, iframeTag := some "IFRAME"
    frame := { containerAtCall := none, containerAfterLoad := none }
    hasPrevious := true, hasNext := true, hasBack := true, hasPageInput := true
    hasPdfViewer := true, hasEventBus := true }

/-- A ready pdf reader whose `previous` button lookup fails while the
other three navigation controls are present. -/
def envNoPrevButton : ReaderEnv :=
  { readerType := "pdf", tabID := "tab4", hasDoc := true, iframeTag := some "IFRAME"
    frame := { containerAtCall := some viewerEmpty, containerAfterLoad := none }
    hasPrevious := false, hasNext := true, hasBack := true, hasPageInput := true
    hasPdfViewer := true, hasEventBus := true }

/-- A ready pdf reader whose frame and container are fine but whose pdf
viewer application exposes no event bus. -/
def envNoEventBus : ReaderEnv :=
  { readerType := "pdf", tabID := "tab5", hasDoc := true, iframeTag := some "IFRAME"
    frame := { containerAtCall := some viewerEmpty, containerAfterLoad := none }
    hasPrevious := true, hasNext := true, hasBack := true, hasPageInput := true
    hasPdfViewer := true, hasEventBus := false }

/-! Helper lemmas (shared; not tied to a single claim). -/

/-- A successful `List.find?` splits the list at the first element
satisfying the predicate. -/
theorem find_first_split {α : Type} (f : α → Bool) :
    ∀ l : List α, (∃ a ∈ l, f a = true) →
      ∃ pre a post, l = pre ++ a :: post ∧ l.find? f = some a ∧ f a = true ∧
        ∀ b ∈ pre, f b = false := by
  intro l
  induction l with
  | nil =>
    rintro ⟨a, ha, -⟩
    cases ha
  | cons x xs ih =>
    intro h
    cases hfx : f x with
    | true =>
      refine ⟨[], x, xs, rfl, ?_, hfx, by simp⟩
      simp [List.find?_cons, hfx]
    | false =>
      obtain ⟨a, ha, hfa⟩ := h
      have ha' : a ∈ xs := by
        cases List.mem_cons.mp ha with
        | inl h' =>
          subst h'
          rw [hfx] at hfa
          cases hfa
        | inr h' => exact h'
      obtain ⟨pre, a', post, hsplit, hfind, hfa', hpre⟩ := ih ⟨a, ha', hfa⟩
      refine ⟨x :: pre, a', post, by simp [hsplit], ?_, hfa', ?_⟩
      · simp [List.find?_cons, hfx, hfind]
      · intro b hb
        cases List.mem_cons.mp hb with
        | inl h' =>
          subst h'
          exact hfx
        | inr h' => exact hpre b h'

/-- No operation of the plugin returns a modified plugin object: the class
assigns to its own fields only in the constructor. -/
theorem run_fst (p : Plugin) (op : Op) : (p.run op).1 = p := by
  cases op <;> rfl

/-- Running any sequence of operations leaves the plugin object itself
unchanged. -/
theorem runAll_eq (ops : List Op) : ∀ p : Plugin, p.runAll ops = p := by
  induction ops with
  | nil => intro p; rfl
  | cons op ops ih =>
    intro p
    have h : p.runAll (op :: ops) = ((p.run op).1).runAll ops := rfl
    rw [h, run_fst, ih]

/-! Claim theorems. -/

/-- C1: for every viewport and page element, `getScrollTarget` returns
exactly `top = page.offsetTop + (page.clientHeight - viewer.clientHeight)/2`
and `left = page.offsetLeft + (page.clientWidth - viewer.clientWidth)/2`,
negative slack included; in particular a 400-wide page at `offsetLeft` 200
in an 800-wide viewport yields `left = 0`. -/
theorem getScrollTarget_centers (viewer : Viewer) (page : Elem) :
    getScrollTarget viewer page =
      { top := page.offsetTop + (page.clientHeight - viewer.clientHeight) / 2
        left := page.offsetLeft + (page.clientWidth - viewer.clientWidth) / 2 } ∧
    (getScrollTarget viewerEmpty
      { offsetTop := 1200, offsetLeft := 200, clientWidth := 400, clientHeight := 600 }).left
      = 0 := by
  constructor
  · simp only [getScrollTarget, ScrollTarget.mk.injEq]
    constructor <;> ring
  · norm_num [getScrollTarget, viewerEmpty]

/-- C2: whenever some page of the viewer lies within the 5-unit tolerance
of `scrollTop`, `getCurrentPage` returns a page within the tolerance, and
it is the first such page in document (iteration) order. -/
theorem getCurrentPage_first_match (viewer : Viewer)
    (h : ∃ p ∈ viewer.pages, withinTol viewer.scrollTop p = true) :
    ∃ pre page post,
      viewer.pages = pre ++ page :: post ∧
      getCurrentPage viewer = some page ∧
      withinTol viewer.scrollTop page = true ∧
      ∀ q ∈ pre, withinTol viewer.scrollTop q = false :=
  find_first_split (withinTol viewer.scrollTop) viewer.pages h

/-- Witness for C2 at a viewer with two in-tolerance pages. -/
theorem getCurrentPage_first_match_witness :
    ∃ pre page post,
      viewerAB.pages = pre ++ page :: post ∧
      getCurrentPage viewerAB = some page ∧
      withinTol viewerAB.scrollTop page = true ∧
      ∀ q ∈ pre, withinTol viewerAB.scrollTop q = false :=
  getCurrentPage_first_match viewerAB
    ⟨pageA, by simp [viewerAB], by norm_num [withinTol, pageA, viewerAB]⟩

/-- C3 counterexample: on a fully ready surface the attachment sequence of
the listener variant installs 4 DOM listeners per invocation and a second
invocation installs 4 more (8 in total, 10 for the override variant's
wrappers), so the second invocation is not a no-op and hooks are not
installed only once per Surface. -/
theorem addListeners_second_attach_installs_again :
    installCount (addListenersTraceL envReadyFull) = 4 ∧
    installCount (addListenersTraceL envReadyFull ++ addListenersTraceL envReadyFull) = 8 ∧
    installCount (addListenersTraceO envReadyFull ++ addListenersTraceO envReadyFull) = 10 := by
  refine ⟨?_, ?_, ?_⟩ <;> decide

/-- C3 amended: the attachment sequence keeps no per-Surface attachment
record and performs no idempotency check; on a fully ready surface every
invocation installs the hooks afresh — 4 listeners (listener variant) or 5
wrapper overrides (override variant) per invocation, so two invocations
install twice as many. -/
theorem addListeners_reinstalls_each_time (env : ReaderEnv)
    (hready : env.frameReady = true)
    (hv : (getViewerContainer env.frame).value.isSome = true)
    (hprev : env.hasPrevious = true) (hnext : env.hasNext = true)
    (hback : env.hasBack = true) (hinput : env.hasPageInput = true)
    (hpdf : env.hasPdfViewer = true) (hbus : env.hasEventBus = true) :
    installCount (addListenersTraceL env) = 4 ∧
    installCount (addListenersTraceO env) = 5 ∧
    installCount (addListenersTraceL env ++ addListenersTraceL env) = 8 ∧
    installCount (addListenersTraceO env ++ addListenersTraceO env) = 10 := by
  obtain ⟨v, hv'⟩ := Option.isSome_iff_exists.mp hv
  have hL : installCount (addListenersTraceL env) = 4 := by
    simp [addListenersTraceL, hready, hv', hprev, hnext, hback, hinput,
      installCount, logA, List.countP_append, List.countP_cons, isInstall]
  have hO : installCount (addListenersTraceO env) = 5 := by
    simp [addListenersTraceO, hready, hv', hpdf, hbus,
      installCount, logA, List.countP_append, List.countP_cons, isInstall]
  refine ⟨hL, hO, ?_, ?_⟩
  · simp [installCount, List.countP_append] at hL ⊢
    omega
  · simp [installCount, List.countP_append] at hO ⊢
    omega

/-- Witness for the C3 amended theorem at the fully ready environment. -/
theorem addListeners_reinstalls_each_time_witness :
    installCount (addListenersTraceL envReadyFull) = 4 ∧
    installCount (addListenersTraceO envReadyFull) = 5 ∧
    installCount (addListenersTraceL envReadyFull ++ addListenersTraceL envReadyFull) = 8 ∧
    installCount (addListenersTraceO envReadyFull ++ addListenersTraceO envReadyFull) = 10 :=
  addListeners_reinstalls_each_time envReadyFull (by decide) (by decide)
    rfl rfl rfl rfl rfl rfl

/-- C4: when no page of the viewer is within the 5-unit tolerance of
`scrollTop` (the empty page list included), `getCurrentPage` returns none
and `centerCurrentPage` performs no scroll call: its trace is just the
could-not-identify diagnostic and applying it leaves the viewer's scroll
position unchanged. -/
theorem centerCurrentPage_skips_without_page (p : Plugin) (viewer : Viewer)
    (h : ∀ q ∈ viewer.pages, withinTol viewer.scrollTop q = false) :
    getCurrentPage viewer = none ∧
    (p.centerCurrentPage viewer).2 = logA "couldn\x27t identify current page" ∧
    applyActions viewer (p.centerCurrentPage viewer).2 = viewer := by
  have hnone : getCurrentPage viewer = none := by
    rw [getCurrentPage, List.find?_eq_none]
    intro q hq
    simp [h q hq]
  refine ⟨hnone, ?_, ?_⟩
  · simp [Plugin.centerCurrentPage, centerTrace, hnone]
  · simp [Plugin.centerCurrentPage, centerTrace, hnone, applyActions, applyAction, logA]

/-- Witness for C4 at a viewer whose only page is out of tolerance. -/
theorem centerCurrentPage_skips_without_page_witness :
    getCurrentPage viewerFar = none ∧
    (p0.centerCurrentPage viewerFar).2 = logA "couldn\x27t identify current page" ∧
    applyActions viewerFar (p0.centerCurrentPage viewerFar).2 = viewerFar :=
  centerCurrentPage_skips_without_page p0 viewerFar (by
    intro q hq
    simp [viewerFar] at hq
    subst hq
    norm_num [withinTol, pageFar, viewerFar])

/-- C5 counterexample: in the listener variant (`src/src/plugin.ts`) the
render-notification handler has no reader-kind filter; for a reader whose
kind tag is "epub" it still acts — it starts the attachment sequence,
whose trace here is the entry log followed by the not-ready diagnostic —
contradicting that the attachment sequence is never started for a non-pdf
Surface. -/
theorem onRenderToolbar_unfiltered_counterexample :
    envEpub.readerType ≠ "pdf" ∧
    (p0.onRenderToolbarL envEpub).2 = addListenersTraceL envEpub ∧
    (p0.onRenderToolbarL envEpub).2 ≠ [] := by
  refine ⟨?_, rfl, ?_⟩ <;> decide

/-- C5 amended: only the override variant filters render notifications by
reader kind — for a non-pdf reader its handler returns with an empty trace
and unchanged plugin — while the listener variant's handler invokes the
attachment sequence for every reader regardless of kind. -/
theorem onRenderToolbar_filtering (p : Plugin) (env : ReaderEnv) :
    (env.readerType ≠ "pdf" → p.onRenderToolbarO env = (p, [])) ∧
    p.onRenderToolbarL env = p.addListenersL env := by
  constructor
  · intro h
    simp [Plugin.onRenderToolbarO, isPDFReader, h]
  · rfl

/-- Witness for the C5 amended theorem at the epub environment. -/
theorem onRenderToolbar_filtering_witness :
    p0.onRenderToolbarO envEpub = (p0, []) :=
  (onRenderToolbar_filtering p0 envEpub).1 (by decide)

/-- C6 counterexample: with the document and frame present but
`#viewerContainer` absent both at call time and after the `load` event,
the listener variant's attachment halts with no hook installed but its
whole trace is the single entry announcement — no diagnostic for the
failed viewport lookup is logged, contradicting that every lookup failure
produces a logged diagnostic. -/
theorem missing_viewer_container_unlogged :
    addListenersTraceL envNoViewer =
      [Action.debug ("[" ++ addonName ++ "] adding page listeners")] ∧
    installCount (addListenersTraceL envNoViewer) = 0 ∧
    addListenersTraceO envNoViewer =
      [Action.debug ("[" ++ addonName ++ "] adding page listeners")] := by
  refine ⟨?_, ?_, ?_⟩ <;> decide

/-- C6 amended: a missing content document or a missing or non-iframe
frame element is non-fatal, produces the logged not-ready diagnostic, and
halts the attempt with no hooks installed (both variants); a missing
`#viewerContainer` — even after the `load` event re-query — and, in the
override variant, a missing `pdfViewer` or `eventBus` also halt the
attempt with no hooks installed but silently, with no diagnostic; a
missing navigation control does not halt the listener variant's attempt at
all — listeners are installed on whichever controls are present and
completion is logged; no failure throws. -/
theorem addListeners_failure_semantics (env : ReaderEnv) :
    (env.frameReady = false →
      addListenersTraceL env =
        logA "adding page listeners" ++
          logA ("couldn\x27t attach styles; tab " ++ env.tabID ++ " not ready") ∧
      addListenersTraceO env =
        logA "adding page listeners" ++
          logA ("couldn\x27t attach styles; tab " ++ env.tabID ++ " not ready") ∧
      installCount (addListenersTraceL env) = 0 ∧
      installCount (addListenersTraceO env) = 0) ∧
    (env.frameReady = true → (getViewerContainer env.frame).value = none →
      addListenersTraceL env = logA "adding page listeners" ∧
      addListenersTraceO env = logA "adding page listeners" ∧
      installCount (addListenersTraceL env) = 0 ∧
      installCount (addListenersTraceO env) = 0) ∧
    (env.frameReady = true →
      env.hasPdfViewer = false ∨ env.hasEventBus = false →
      addListenersTraceO env = logA "adding page listeners" ∧
      installCount (addListenersTraceO env) = 0) ∧
    (∀ v, env.frameReady = true → (getViewerContainer env.frame).value = some v →
      addListenersTraceL env =
        logA "adding page listeners" ++
          ((if env.hasPrevious then [Action.installClick "previous"] else []) ++
           (if env.hasNext then [Action.installClick "next"] else []) ++
           (if env.hasBack then [Action.installClick "navigateBack"] else []) ++
           (if env.hasPageInput then [Action.installChange "pageNumber"] else []) ++
           logA "added page listeners") ∧
      ∃ tr, addListenersTraceL env = tr ++ logA "added page listeners") := by
  refine ⟨?_, ?_, ?_, ?_⟩
  · intro h
    refine ⟨?_, ?_, ?_, ?_⟩ <;>
      simp [addListenersTraceL, addListenersTraceO, h,
        installCount, logA, List.countP_cons, isInstall]
  · intro h1 h2
    refine ⟨?_, ?_, ?_, ?_⟩ <;>
      simp [addListenersTraceL, addListenersTraceO, h1, h2,
        installCount, logA, List.countP_cons, isInstall]
  · intro h1 h2
    have hO : addListenersTraceO env = logA "adding page listeners" := by
      cases hval : (getViewerContainer env.frame).value with
      | none => simp [addListenersTraceO, h1, hval]
      | some v => rcases h2 with h2 | h2 <;> simp [addListenersTraceO, h1, hval, h2]
    refine ⟨hO, ?_⟩
    rw [hO]
    simp [installCount, logA, List.countP_cons, isInstall]
  · intro v h1 h2
    have hL : addListenersTraceL env =
        logA "adding page listeners" ++
          ((if env.hasPrevious then [Action.installClick "previous"] else []) ++
           (if env.hasNext then [Action.installClick "next"] else []) ++
           (if env.hasBack then [Action.installClick "navigateBack"] else []) ++
           (if env.hasPageInput then [Action.installChange "pageNumber"] else []) ++
           logA "added page listeners") := by
      simp [addListenersTraceL, h1, h2]
    refine ⟨hL, ?_⟩
    refine ⟨logA "adding page listeners" ++
      ((if env.hasPrevious then [Action.installClick "previous"] else []) ++
       (if env.hasNext then [Action.installClick "next"] else []) ++
       (if env.hasBack then [Action.installClick "navigateBack"] else []) ++
       (if env.hasPageInput then [Action.installChange "pageNumber"] else [])), ?_⟩
    rw [hL]
    simp

/-- Witness for the C6 amended theorem: the silent halt at the
missing-container environment, the logged halt at the not-ready epub
environment, the silent halt of the override variant at the
missing-event-bus environment, and the non-halting attachment of the
listener variant when the `previous` button is missing (3 hooks installed,
completion logged). -/
theorem addListeners_failure_semantics_witness :
    (addListenersTraceL envNoViewer = logA "adding page listeners" ∧
      addListenersTraceO envNoViewer = logA "adding page listeners" ∧
      installCount (addListenersTraceL envNoViewer) = 0 ∧
      installCount (addListenersTraceO envNoViewer) = 0) ∧
    (addListenersTraceL envEpub =
      logA "adding page listeners" ++
        logA ("couldn\x27t attach styles; tab " ++ envEpub.tabID ++ " not ready")) ∧
    (addListenersTraceO envNoEventBus = logA "adding page listeners" ∧
      installCount (addListenersTraceO envNoEventBus) = 0) ∧
    ((∃ tr, addListenersTraceL envNoPrevButton = tr ++ logA "added page listeners") ∧
      installCount (addListenersTraceL envNoPrevButton) = 3 ∧
      addListenersTraceL envNoPrevButton =
        logA "adding page listeners" ++
          [Action.installClick "next", Action.installClick "navigateBack",
           Action.installChange "pageNumber"] ++
          logA "added page listeners") :=
  ⟨(addListeners_failure_semantics envNoViewer).2.1 (by decide) (by decide),
   ((addListeners_failure_semantics envEpub).1 (by decide)).1,
   (addListeners_failure_semantics envNoEventBus).2.2.1 (by decide) (Or.inr (by decide)),
   ((addListeners_failure_semantics envNoPrevButton).2.2.2 viewerEmpty
      (by decide) (by decide)).2,
   by decide, by decide⟩

/-- C7: each of the five replacement navigation operations of the override
variant performs its original navigation effect — `_history.navigateBack`,
`pdfViewer.previousPage`, `pdfViewer.nextPage`, `eventBus.dispatch` of
`firstpage` or `lastpage` — exactly once and then runs `centerCurrentPage`
on the located viewer, in that order (the centering trace itself performs
no navigation primitive). -/
theorem override_wrappers_center_after_nav (p : Plugin) (viewer : Viewer) :
    p.navigateBack viewer = Action.historyNavigateBack :: centerTrace viewer ∧
    p.navigateToPreviousPage viewer = Action.previousPage :: centerTrace viewer ∧
    p.navigateToNextPage viewer = Action.nextPage :: centerTrace viewer ∧
    p.navigateToFirstPage viewer = Action.dispatch "firstpage" :: centerTrace viewer ∧
    p.navigateToLastPage viewer = Action.dispatch "lastpage" :: centerTrace viewer ∧
    navPrimCount (centerTrace viewer) = 0 ∧
    navPrimCount (p.navigateBack viewer) = 1 ∧
    navPrimCount (p.navigateToPreviousPage viewer) = 1 ∧
    navPrimCount (p.navigateToNextPage viewer) = 1 ∧
    navPrimCount (p.navigateToFirstPage viewer) = 1 ∧
    navPrimCount (p.navigateToLastPage viewer) = 1 := by
  have h0 : List.countP isNavPrim (centerTrace viewer) = 0 := by
    unfold centerTrace
    cases getCurrentPage viewer <;>
      simp [logA, List.countP_cons, List.countP_append, isNavPrim]
  refine ⟨rfl, rfl, rfl, rfl, rfl, h0, ?_, ?_, ?_, ?_, ?_⟩ <;>
    simp [Plugin.navigateBack, Plugin.navigateToPreviousPage, Plugin.navigateToNextPage,
      Plugin.navigateToFirstPage, Plugin.navigateToLastPage, Plugin.centerCurrentPage,
      navPrimCount, List.countP_cons, isNavPrim, h0]

/-- C8: `getViewerContainer` resolves immediately with the container when
the `#viewerContainer` query succeeds at call time, and otherwise resolves
only at the frame's `load` event with the result of the single re-query —
the container when it is then present, none when it is still absent — and
in no case by raising an error. -/
theorem getViewerContainer_resolution (env : IframeEnv) :
    (∀ v, env.containerAtCall = some v →
      getViewerContainer env = ContainerResolution.immediate v) ∧
    (env.containerAtCall = none →
      getViewerContainer env = ContainerResolution.afterLoad env.containerAfterLoad) := by
  constructor
  · intro v hv
    simp [getViewerContainer, hv]
  · intro hv
    simp [getViewerContainer, hv]

/-- Witness for C8 at a present and at an absent container. -/
theorem getViewerContainer_resolution_witness :
    getViewerContainer { containerAtCall := some viewerEmpty, containerAfterLoad := none } =
      ContainerResolution.immediate viewerEmpty ∧
    getViewerContainer { containerAtCall := none, containerAfterLoad := none } =
      ContainerResolution.afterLoad none :=
  ⟨(getViewerContainer_resolution _).1 viewerEmpty rfl,
   (getViewerContainer_resolution _).2 rfl⟩

/-- C9: the four configuration fields `id`, `version`, `rootURI` and
`stylesId` are unchanged by every operation of the plugin — startup,
shutdown, both variants' render handler and attachment sequence, the
centering orchestration, and logging. -/
theorem config_fields_immutable (p : Plugin) (op : Op) :
    ((p.run op).1).id = p.id ∧ ((p.run op).1).version = p.version ∧
    ((p.run op).1).rootURI = p.rootURI ∧ ((p.run op).1).stylesId = p.stylesId := by
  cases op <;> exact ⟨rfl, rfl, rfl, rfl⟩

/-- C10: the `#isActive` backing field is initialized to `true` and no
operation ever writes it, so after any sequence of operations of a plugin's
lifetime (shutdown included) `isActive` still reads `true` — it never
reflects the startup or shutdown state. -/
theorem isActive_always_true (opts : PluginOptions) (ops : List Op) :
    (Plugin.init opts).isActive = true ∧
    ((Plugin.init opts).runAll ops).isActive = true := by
  refine ⟨rfl, ?_⟩
  rw [runAll_eq ops (Plugin.init opts)]
  rfl

end CenterPdf
